import Mathlib

/-!
vBrowser adapter/search core — verification development

Shallow embedding of the vector-database browser's adapter/search core and
its frontend state logic, with proofs of the specification's testable
properties.

The repository ships the TypeScript frontend (`src/types`, `src/services/api`,
`src/pages/Browser`, `src/contexts/ConfigContext`); the Python backend
(`backend/main.py`, which implements the Pagination Engine, Substring Search
Engine, Similarity Search Adapter, Export Streamer and Instance Registry) is
not part of the source tree here, so those components are modelled from the
specification (§4.3–§4.6, §4.1) and marked as such in their doc comments.
-/

/-! ## Data model (from `src/unnamed/part_000`, the `types` module) -/

/-- JSON-like payload values attached to a point (spec §3: payload is an
ordered mapping of string to arbitrary JSON value). -/
inductive Json where
  | null : Json
  | bool (b : Bool) : Json
  | num (n : Int) : Json
  | str (s : String) : Json
  | arr (xs : List Json) : Json
  | obj (kvs : List (String × Json)) : Json

/-- `PointInfo` from `src/unnamed/part_000`: id (string), payload, optional
vector, optional score.  Vector components and scores are modelled as
integers; no claim depends on their numeric values, only on lengths and
presence. -/
structure PointInfo where
  id : String
  payload : List (String × Json)
  vector : Option (List Int) := none
  score : Option Int := none

/-- `CollectionInfo` from `src/unnamed/part_000`. -/
structure CollectionInfo where
  name : String
  vector_size : Nat
  distance : String
  points_count : Nat
  segments_count : Nat
  status : String
deriving Repr, DecidableEq

/-- Backend kind of an instance (`'qdrant' | 'chromadb'`). -/
inductive BackendType where
  | qdrant : BackendType
  | chromadb : BackendType
deriving Repr, DecidableEq

/-- `InstanceConfig` from `src/unnamed/part_000`. -/
structure InstanceConfig where
  name : String
  url : String
  api_key : Option String := none
  btype : BackendType
deriving Repr, DecidableEq

/-- `QdrantConfig` from `src/unnamed/part_000` (legacy config entries). -/
structure QdrantConfig where
  name : String
  url : String
  api_key : Option String := none
deriving Repr, DecidableEq

/-- `SearchRequest` from `src/unnamed/part_000` (vector similarity search). -/
structure SearchRequest where
  collection_name : String
  query_vector : List Int
  limit : Nat
  score_threshold : Option Int := none
deriving Repr, DecidableEq

/-- `TextSearchRequest` from `src/unnamed/part_000`. -/
structure TextSearchRequest where
  collection_name : String
  search_text : List Char
  limit : Nat
  case_sensitive : Bool
deriving Repr, DecidableEq

/-- `TextSearchResponse` from `src/unnamed/part_000`: results, `total`
(matches) and `searched_total` (points scanned). -/
structure TextSearchResponse where
  results : List PointInfo
  total : Nat
  searched_total : Nat

/-- `PointsResponse` from `src/unnamed/part_000`: one page of points. -/
structure PointsResponse where
  points : List PointInfo
  total : Nat
  limit : Nat
  offset : Nat

/-! ## Pagination Engine (modelled from the spec) -/

/-- Modelled from the spec: §4.3 Pagination Engine, whose implementation
(`backend/main.py`) is not in the source tree.  Over a static collection,
`fetchPage` with a numeric offset returns the slice of `limit` points
starting at `offset`, together with the backend's authoritative `total`. -/
def fetchPage (coll : List PointInfo) (offset limit : Nat) : PointsResponse :=
  { points := (coll.drop offset).take limit
    total := coll.length
    limit := limit
    offset := offset }

/-- The concatenation of the first `k` consecutive pages of size `limit`
(offsets `0, limit, 2*limit, …`). -/
def joinPages (coll : List PointInfo) (limit k : Nat) : List PointInfo :=
  (List.range k).flatMap (fun i => (fetchPage coll (i * limit) limit).points)

/-! ## Text utilities: lowercasing, trimming, substring test

The spec (§4.4) requires a locale-invariant case mapping and plain substring
matching; the frontend (`Browser.tsx`) trims the needle with JS `trim()`.
Text is modelled as `List Char`. -/

/-- Locale-invariant ASCII lowercase mapping of one character. -/
def lowerChar (c : Char) : Char :=
  if 'A' ≤ c ∧ c ≤ 'Z' then Char.ofNat (c.toNat + 32) else c

/-- Lowercase an entire character sequence. -/
def lowerStr (s : List Char) : List Char := s.map lowerChar

/-- Whitespace as recognized by JS `String.prototype.trim` (the characters
that occur in practice). -/
def isWS (c : Char) : Bool :=
  c = ' ' || c = '\t' || c = '\n' || c = '\r'

/-- JS `trim()`: strip leading and trailing whitespace. -/
def trimChars (s : List Char) : List Char :=
  ((s.dropWhile isWS).reverse.dropWhile isWS).reverse

/-- Does `s` start with `n`? -/
def startsWith : List Char → List Char → Bool
  | [], _ => true
  | _ :: _, [] => false
  | a :: as, b :: bs => a = b && startsWith as bs

/-- Plain substring test: does `n` occur contiguously inside `s`?
(no regex, no tokenization — spec §4.4). -/
def hasSubstr : List Char → List Char → Bool
  | n, [] => n.isEmpty
  | n, c :: s => startsWith n (c :: s) || hasSubstr n s


/-! ## Payload serialization (modelled from the spec)

Spec §4.4: each point's payload is serialized to a canonical depth-first
string form with stable key order, and the needle is tested as a plain
substring of that form. -/

mutual
/-- Modelled from the spec: §4.4 canonical depth-first serialization of a
JSON value (the backend implementation is not in the source tree). -/
def serializeJson : Json → List Char
  | Json.null => "null".data
  | Json.bool true => "true".data
  | Json.bool false => "false".data
  | Json.num n => (toString n).data
  | Json.str s => '"' :: s.data ++ ['"']
  | Json.arr xs => '[' :: serializeArr xs ++ [']']
  | Json.obj kvs => '<' :: serializeObj kvs ++ ['>']

/-- Depth-first serialization of an array's elements, comma-separated. -/
def serializeArr : List Json → List Char
  | [] => []
  | [x] => serializeJson x
  | x :: y :: xs => serializeJson x ++ ',' :: serializeArr (y :: xs)

/-- Depth-first serialization of an object's key/value pairs in stored
(stable) key order. -/
def serializeObj : List (String × Json) → List Char
  | [] => []
  | [(k, v)] => '"' :: k.data ++ '"' :: ':' :: serializeJson v
  | (k, v) :: p :: kvs =>
      '"' :: k.data ++ '"' :: ':' :: serializeJson v ++ ',' :: serializeObj (p :: kvs)
end

/-- The serialized form of a point's payload (an object). -/
def serializePayload (payload : List (String × Json)) : List Char :=
  '<' :: serializeObj payload ++ ['>']

/-! ## Substring Search Engine (modelled from the spec) -/

/-- Modelled from the spec: §4.4 per-point match test — serialize the payload
depth-first and test the needle as a plain substring; case-insensitive mode
lowercases both needle and serialized form with the locale-invariant mapping,
case-sensitive mode compares exactly. -/
def matchesPoint (caseSensitive : Bool) (needle : List Char) (p : PointInfo) : Bool :=
  let s := serializePayload p.payload
  if caseSensitive then hasSubstr needle s
  else hasSubstr (lowerStr needle) (lowerStr s)

/-- Scan loop of the Substring Search Engine: scan points in encounter order,
accumulate matching points, stop once `maxResults` matches are collected;
`scanned` counts points actually examined. -/
def searchGo (caseSensitive : Bool) (needle : List Char) (maxResults : Nat) :
    List PointInfo → List PointInfo → Nat → List PointInfo × Nat
  | [], acc, scanned => (acc, scanned)
  | p :: ps, acc, scanned =>
    if acc.length = maxResults then (acc, scanned)
    else
      searchGo caseSensitive needle maxResults ps
        (if matchesPoint caseSensitive needle p then acc ++ [p] else acc)
        (scanned + 1)

/-- Modelled from the spec: §4.4 `search(collection, needle, caseSensitive,
maxResults) -> SearchOutcome` (the backend implementation is not in the
source tree).  Scans the collection from offset 0 in encounter order,
matches each point at most once, stops early once `maxResults` matches are
found, and reports exact `total` matches and `searched_total` points
scanned up to the stop. -/
def searchCollection (coll : List PointInfo) (needle : List Char)
    (caseSensitive : Bool) (maxResults : Nat) : TextSearchResponse :=
  let r := searchGo caseSensitive needle maxResults coll [] 0
  { results := r.1, total := r.1.length, searched_total := r.2 }


/-! ## Similarity Search Adapter (modelled from the spec) -/

/-- Error taxonomy relevant to the verified claims (spec §7). -/
inductive ApiError where
  | DimensionMismatch : ApiError
  | DuplicateName : ApiError
  | NotFound : ApiError
deriving Repr, DecidableEq

/-- Modelled from the spec: §4.5 Similarity Search Adapter (the backend
implementation is not in the source tree).  Validates
`queryVector.length == collection.vector_size` before dispatch; on mismatch
fails with `DimensionMismatch` without calling the backend driver.  The
driver is a parameter; the second component records whether it was called.
On the success path the driver receives the query vector unchanged (never
padded or truncated). -/
def similaritySearch (coll : CollectionInfo) (queryVector : List Int)
    (driver : List Int → List PointInfo) :
    Except ApiError (List PointInfo) × Bool :=
  if queryVector.length = coll.vector_size then
    (Except.ok (driver queryVector), true)
  else
    (Except.error ApiError.DimensionMismatch, false)

/-! ## Export Streamer (modelled from the spec) and the frontend's
blob handling (from `ApiService.exportCollection`, `src/unnamed/part_001`) -/

/-- Union of top-level payload keys over the scanned points, in order of
first appearance (spec §4.6: the column set is the union of keys seen). -/
def collectKeys (points : List PointInfo) : List String :=
  points.foldl
    (fun ks p => ks ++ (p.payload.map Prod.fst).filter (fun k => ¬ ks.contains k))
    []

/-- Vector dimensionality used for vector columns: length of the first
present vector, 0 when absent. -/
def vectorDim (points : List PointInfo) : Nat :=
  ((points.head?.bind PointInfo.vector).map List.length).getD 0

/-- Header cells of the export: `id`, one column per payload key, and, when
vectors are requested, one column per vector dimension named by index. -/
def exportHeaderCells (points : List PointInfo) (withVectors : Bool) : List String :=
  "id" :: collectKeys points
    ++ (if withVectors then (List.range (vectorDim points)).map (fun i => "v" ++ toString i) else [])

/-- One CSV line: cells joined with commas (no trailing newline). -/
def csvLine (cells : List String) : List Char :=
  (String.intercalate "," cells).data

/-- The cell emitted for key `k` of point `p`: the serialized payload value,
or empty when the key is missing for this row (spec §4.6). -/
def payloadCell (p : PointInfo) (k : String) : String :=
  match p.payload.find? (fun kv => kv.1 = k) with
  | some kv => String.mk (serializeJson kv.2)
  | none => ""

/-- Data row for one point under the given payload-key columns. -/
def rowCells (keys : List String) (withVectors : Bool) (p : PointInfo) : List String :=
  p.id :: keys.map (payloadCell p)
    ++ (if withVectors then ((p.vector.getD []).map toString) else [])

/-- Modelled from the spec: §4.6 Export Streamer (the backend implementation
is not in the source tree).  Emits the header row, then one row per point;
a collection with zero points therefore yields a header-only artifact. -/
def exportCollectionCsv (points : List PointInfo) (withVectors : Bool) : List Char :=
  csvLine (exportHeaderCells points withVectors) ++ '\n'
    :: points.flatMap (fun p =>
        csvLine (rowCells (collectKeys points) withVectors p) ++ ['\n'])

/-- From `ApiService.exportCollection` (`src/unnamed/part_001` lines
156–159): a zero-byte blob is rejected as a transport failure
(`Export failed: Empty file received`); any non-empty blob is returned. -/
def receiveExportBlob (blobSize : Nat) : Except String Nat :=
  if blobSize = 0 then Except.error "Export failed: Empty file received"
  else Except.ok blobSize

/-! ## Instance Registry (modelled from the spec) -/

/-- Modelled from the spec: §4.1 Instance Registry `register(descriptor)`
(the backend implementation behind `POST /instances` is not in the source
tree).  Fails with `DuplicateName` when the name already exists; otherwise
appends the descriptor. -/
def registerInstance (registry : List InstanceConfig) (inst : InstanceConfig) :
    Except ApiError (List InstanceConfig) :=
  if registry.any (fun i => i.name = inst.name) then
    Except.error ApiError.DuplicateName
  else
    Except.ok (registry ++ [inst])

/-- The registry a caller holds after attempting a `register`: the new list
on success, the unchanged original on failure. -/
def registryAfterRegister (registry : List InstanceConfig) (inst : InstanceConfig) :
    List InstanceConfig :=
  match registerInstance registry inst with
  | Except.ok r => r
  | Except.error _ => registry


/-! ## Client-side config/instance state (from
`src/frontend/src/contexts/ConfigContext.tsx`) -/

/-- The `ConfigProvider` client state: the `configs` and `instances` lists. -/
structure ClientState where
  configs : List QdrantConfig
  instances : List InstanceConfig

/-- `ConfigProvider.addConfig`: remove any same-named config, then append. -/
def addConfig (s : ClientState) (config : QdrantConfig) : ClientState :=
  { s with configs := s.configs.filter (fun c => c.name ≠ config.name) ++ [config] }

/-- `ConfigProvider.addInstance`: remove any same-named instance, then
append. -/
def addInstance (s : ClientState) (inst : InstanceConfig) : ClientState :=
  { s with instances := s.instances.filter (fun i => i.name ≠ inst.name) ++ [inst] }

/-- `ConfigProvider.removeConfig`: drop every config with the given name. -/
def removeConfig (s : ClientState) (name : String) : ClientState :=
  { s with configs := s.configs.filter (fun c => c.name ≠ name) }

/-- `ConfigProvider.removeInstance`: drop every instance with the given
name. -/
def removeInstance (s : ClientState) (name : String) : ClientState :=
  { s with instances := s.instances.filter (fun i => i.name ≠ name) }

/-- One client-side mutation of the provider state. -/
inductive ClientOp where
  | addCfg (config : QdrantConfig) : ClientOp
  | addInst (inst : InstanceConfig) : ClientOp
  | rmCfg (name : String) : ClientOp
  | rmInst (name : String) : ClientOp

/-- Apply one operation to the client state. -/
def applyClientOp (s : ClientState) : ClientOp → ClientState
  | ClientOp.addCfg c => addConfig s c
  | ClientOp.addInst i => addInstance s i
  | ClientOp.rmCfg n => removeConfig s n
  | ClientOp.rmInst n => removeInstance s n

/-- Apply a sequence of operations, left to right. -/
def runClientOps (s : ClientState) (ops : List ClientOp) : ClientState :=
  ops.foldl applyClientOp s

/-- Name uniqueness of both client-side lists: at most one entry per name. -/
def namesUnique (s : ClientState) : Prop :=
  (s.instances.map InstanceConfig.name).Nodup ∧ (s.configs.map QdrantConfig.name).Nodup

instance (s : ClientState) : Decidable (namesUnique s) := by
  unfold namesUnique; infer_instance

/-! ## Browser page state and search handler (from
`src/unnamed/part_001`, `Browser`) -/

/-- The slice of `Browser`'s component state that the search flow touches. -/
structure BrowserState where
  selectedCollection : Option String
  searchText : List Char
  caseSensitive : Bool
  searchResults : List PointInfo
  searchTotal : Nat
  searchedTotal : Nat
  isSearchMode : Bool
  searchCurrentPage : Nat
  searchResultsPerPage : Nat

/-- `Browser.handleSearch` (`src/unnamed/part_001` lines 360–386): bail out
when no collection is selected or the trimmed needle is empty (no request is
sent, no state changes); otherwise reset the search page to 0, send a
`TextSearchRequest` with the trimmed needle, the case flag and a fixed
`limit` of 100, and store the response.  Returns the new state together with
the request that was sent, if any.  The backend answering the request is the
spec-modelled `searchCollection` over the collection's points. -/
def handleSearch (coll : List PointInfo) (s : BrowserState) :
    BrowserState × Option TextSearchRequest :=
  match s.selectedCollection with
  | none => (s, none)
  | some sel =>
    if (trimChars s.searchText).isEmpty then (s, none)
    else
      let req : TextSearchRequest :=
        { collection_name := sel
          search_text := trimChars s.searchText
          limit := 100
          case_sensitive := s.caseSensitive }
      let resp := searchCollection coll req.search_text req.case_sensitive req.limit
      ({ s with
          searchCurrentPage := 0
          searchResults := resp.results
          searchTotal := resp.total
          searchedTotal := resp.searched_total
          isSearchMode := true }, some req)

/-- `Browser`'s `paginatedSearchResults` (`src/unnamed/part_001` lines
470–473): a client-side slice of the stored search results —
`searchResults.slice(page*rpp, (page+1)*rpp)` — computed without any
backend request. -/
def paginatedSearchResults (s : BrowserState) : List PointInfo :=
  (s.searchResults.drop (s.searchCurrentPage * s.searchResultsPerPage)).take
    s.searchResultsPerPage

/-! ## Highlighting components (from `src/unnamed/part_001`,
`HighlightedText` / `HighlightedJson`) -/

/-- A rendered fragment: plain text or a highlighted `<mark>` run. -/
inductive Fragment where
  | plain (s : List Char) : Fragment
  | mark (s : List Char) : Fragment

/-- Case-aware prefix test used when splitting text around matches. -/
def startsWithCase (caseSensitive : Bool) (needle s : List Char) : Bool :=
  if caseSensitive then startsWith needle s
  else startsWith (lowerStr needle) (lowerStr s)

/-- Split `text` around occurrences of `needle` (leftmost, non-overlapping,
as the `g`/`gi` regex does), marking each occurrence. -/
def splitHL (caseSensitive : Bool) (needle : List Char) : List Char → List Fragment
  | [] => []
  | c :: rest =>
    if h : needle ≠ [] ∧ startsWithCase caseSensitive needle (c :: rest) then
      Fragment.mark ((c :: rest).take needle.length)
        :: splitHL caseSensitive needle ((c :: rest).drop needle.length)
    else
      Fragment.plain [c] :: splitHL caseSensitive needle rest
termination_by s => s.length
decreasing_by
  · have hn : 0 < needle.length := List.length_pos.mpr h.1
    simp only [List.length_drop, List.length_cons]
    omega
  · simp

/-- `HighlightedText` (`src/unnamed/part_001` lines 197–226): when the
trimmed needle is empty, render the text unchanged in a single plain span;
otherwise split around matches and mark them. -/
def highlightedText (text searchText : List Char) (caseSensitive : Bool) :
    List Fragment :=
  if (trimChars searchText).isEmpty then [Fragment.plain text]
  else splitHL caseSensitive searchText text

/-- `HighlightedJson` (`src/unnamed/part_001` lines 236–271): serialize the
JSON value, then highlight the serialized text exactly as `HighlightedText`
does; with an empty trimmed needle the serialized form is rendered
unchanged. -/
def highlightedJson (j : Json) (searchText : List Char) (caseSensitive : Bool) :
    List Fragment :=
  if (trimChars searchText).isEmpty then [Fragment.plain (serializeJson j)]
  else splitHL caseSensitive searchText (serializeJson j)


/-! ## Concrete sample data (the spec §8 scenario and small instances) -/

/-- The first point of the spec's `docs` scenario. -/
def samplePoint1 : PointInfo := { id := "1", payload := [("title", Json.str "Apple pie")] }

/-- The second point of the spec's `docs` scenario. -/
def samplePoint2 : PointInfo := { id := "2", payload := [("title", Json.str "apple tart")] }

/-- The third point of the spec's `docs` scenario. -/
def samplePoint3 : PointInfo := { id := "3", payload := [("title", Json.str "Banana")] }

/-- The spec's `docs` collection: 3 points. -/
def sampleDocs : List PointInfo := [samplePoint1, samplePoint2, samplePoint3]

/-- A sample collection descriptor with `vector_size = 4`. -/
def sampleCollection : CollectionInfo :=
  { name := "docs", vector_size := 4, distance := "cosine"
    points_count := 3, segments_count := 1, status := "green" }

/-- A sample qdrant instance descriptor. -/
def sampleInstA : InstanceConfig :=
  { name := "local-qdrant", url := "http://localhost:6333", btype := BackendType.qdrant }

/-- A different descriptor that reuses `sampleInstA`'s name. -/
def sampleInstA2 : InstanceConfig :=
  { name := "local-qdrant", url := "http://elsewhere:6333", btype := BackendType.qdrant }

/-- A sample chromadb instance descriptor. -/
def sampleInstB : InstanceConfig :=
  { name := "local-chroma", url := "http://localhost:6335", btype := BackendType.chromadb }

/-- A Browser state about to search `docs` for `apple`, case-insensitive. -/
def sampleBrowserState : BrowserState :=
  { selectedCollection := some "docs", searchText := "apple".data
    caseSensitive := false, searchResults := [], searchTotal := 0
    searchedTotal := 0, isSearchMode := false, searchCurrentPage := 0
    searchResultsPerPage := 10 }

/-- A Browser state whose needle is whitespace-only. -/
def sampleBrowserStateWS : BrowserState :=
  { sampleBrowserState with searchText := "   ".data }

/-- The request `handleSearch` sends from `sampleBrowserState`. -/
def sampleRequest : TextSearchRequest :=
  { collection_name := "docs", search_text := "apple".data
    limit := 100, case_sensitive := false }

/-- The empty client-side provider state. -/
def emptyClientState : ClientState := { configs := [], instances := [] }

/-! ## Theorems -/

theorem joinPages_eq_take (coll : List PointInfo) (limit k : Nat) :
    joinPages coll limit k = coll.take (k * limit) := by
  induction k with
  | zero => simp [joinPages]
  | succ n ih =>
    have h1 : joinPages coll limit (n + 1)
        = joinPages coll limit n ++ (coll.drop (n * limit)).take limit := by
      simp [joinPages, List.range_succ, fetchPage]
    rw [h1, ih, Nat.succ_mul, List.take_add]

/-- C1: over a static collection, `fetchPage` returns exactly `limit` points
whenever `offset + limit ≤ total`, and the consecutive pages at offsets
`0, limit, 2·limit, …` concatenate back to exactly the collection's point
list — a partition with no gaps and no duplicates. -/
theorem fetchPage_exact_and_partition (coll : List PointInfo) (limit k : Nat)
    (hcov : coll.length ≤ k * limit) :
    (∀ offset, offset + limit ≤ coll.length →
        (fetchPage coll offset limit).points.length = limit) ∧
    joinPages coll limit k = coll := by
  constructor
  · intro offset h
    simp only [fetchPage, List.length_take, List.length_drop]
    omega
  · rw [joinPages_eq_take]
    exact List.take_of_length_le hcov

/-- Witness for C1 at the spec §8 scenario: the 3-point `docs` collection
with `limit = 2` — the first page has exactly 2 points and the two pages
partition the collection. -/
theorem fetchPage_exact_and_partition_witness :
    sampleDocs.length ≤ 2 * 2 ∧
    0 + 2 ≤ sampleDocs.length ∧
    (fetchPage sampleDocs 0 2).points.length = 2 ∧
    joinPages sampleDocs 2 2 = sampleDocs := by
  have hcov : sampleDocs.length ≤ 2 * 2 := by decide
  refine ⟨hcov, by decide, ?_, ?_⟩
  · exact (fetchPage_exact_and_partition sampleDocs 2 2 hcov).1 0 (by decide)
  · exact (fetchPage_exact_and_partition sampleDocs 2 2 hcov).2

theorem searchGo_bounds (cs : Bool) (n : List Char) (mr : Nat) :
    ∀ (ps acc : List PointInfo) (sc : Nat),
      (searchGo cs n mr ps acc sc).1.length + sc
          ≤ acc.length + (searchGo cs n mr ps acc sc).2 ∧
      (searchGo cs n mr ps acc sc).2 ≤ sc + ps.length := by
  intro ps
  induction ps with
  | nil => intro acc sc; simp [searchGo]
  | cons p ps ih =>
    intro acc sc
    by_cases h : acc.length = mr
    · simp [searchGo, h]
    · rw [show searchGo cs n mr (p :: ps) acc sc
          = searchGo cs n mr ps
              (if matchesPoint cs n p then acc ++ [p] else acc) (sc + 1) by
        simp [searchGo, h]]
      simp only [List.length_cons]
      by_cases hm : matchesPoint cs n p
      · rw [if_pos hm]
        obtain ⟨h1, h2⟩ := ih (acc ++ [p]) (sc + 1)
        rw [List.length_append, List.length_singleton] at h1
        refine ⟨by omega, by omega⟩
      · rw [if_neg hm]
        obtain ⟨h1, h2⟩ := ih acc (sc + 1)
        refine ⟨by omega, by omega⟩

/-- C2: every outcome of the substring search satisfies
`total ≤ searched_total`, and `searched_total` never exceeds the number of
points in the (static) collection — the model of `points_count` at scan
time. -/
theorem searchOutcome_invariant (coll : List PointInfo) (needle : List Char)
    (cs : Bool) (mr : Nat) :
    (searchCollection coll needle cs mr).total
        ≤ (searchCollection coll needle cs mr).searched_total ∧
    (searchCollection coll needle cs mr).searched_total ≤ coll.length := by
  obtain ⟨h1, h2⟩ := searchGo_bounds cs needle mr coll [] 0
  simp only [searchCollection]
  constructor
  · simpa using h1
  · simpa using h2


theorem startsWith_lower {n s : List Char} (h : startsWith n s = true) :
    startsWith (lowerStr n) (lowerStr s) = true := by
  induction n generalizing s with
  | nil => simp [startsWith, lowerStr]
  | cons a as ih =>
    cases s with
    | nil => simp [startsWith] at h
    | cons b bs =>
      simp only [startsWith, lowerStr, List.map_cons, Bool.and_eq_true,
        decide_eq_true_eq] at h ⊢
      exact ⟨by rw [h.1], ih h.2⟩

theorem hasSubstr_lower {n s : List Char} (h : hasSubstr n s = true) :
    hasSubstr (lowerStr n) (lowerStr s) = true := by
  induction s with
  | nil =>
    simp only [hasSubstr, List.isEmpty_iff] at h
    simp [h, hasSubstr, lowerStr]
  | cons c s ih =>
    simp only [hasSubstr, Bool.or_eq_true] at h
    rcases h with h | h
    · have := startsWith_lower h
      simp only [lowerStr, List.map_cons] at this
      simp only [lowerStr, List.map_cons, hasSubstr, Bool.or_eq_true]
      exact Or.inl (by simpa [lowerStr] using this)
    · simp only [lowerStr, List.map_cons, hasSubstr, Bool.or_eq_true]
      exact Or.inr (by simpa [lowerStr] using ih h)

/-- C3: case sensitivity law — if the case-sensitive substring search
matches a point, the case-insensitive search with the same needle matches
it too; the converse fails (witnessed by needle `apple` against the payload
`Apple pie`). -/
theorem case_sensitivity_law :
    (∀ (needle : List Char) (p : PointInfo),
        matchesPoint true needle p = true → matchesPoint false needle p = true) ∧
    matchesPoint false ("apple".data) samplePoint1 = true ∧
    matchesPoint true ("apple".data) samplePoint1 = false := by
  refine ⟨?_, by decide, by decide⟩
  intro needle p h
  simp only [matchesPoint, if_true] at h
  simp only [matchesPoint, if_false]
  exact hasSubstr_lower h

/-- Witness for C3: the needle `Apple` matches the payload `Apple pie`
case-sensitively, so by the law it also matches case-insensitively. -/
theorem case_sensitivity_law_witness :
    matchesPoint true ("Apple".data) samplePoint1 = true ∧
    matchesPoint false ("Apple".data) samplePoint1 = true :=
  ⟨by decide, case_sensitivity_law.1 ("Apple".data) samplePoint1 (by decide)⟩

/-- C4: the substring search is idempotent — re-running `handleSearch` with
the same (unmodified) collection from the state produced by a first run
sends the identical request and reproduces the identical stored `results`,
`total` and `searched_total`; the whole result of the second run equals
that of the first. -/
theorem handleSearch_idempotent (coll : List PointInfo) (s : BrowserState) :
    handleSearch coll (handleSearch coll s).1 = handleSearch coll s := by
  cases hsel : s.selectedCollection with
  | none => simp [handleSearch, hsel]
  | some sel =>
    by_cases ht : (trimChars s.searchText).isEmpty
    · simp [handleSearch, hsel, ht]
    · simp [handleSearch, hsel, ht]

/-- C5: a query vector whose length differs from the collection's
`vector_size` makes `similaritySearch` fail with `DimensionMismatch`, and
the backend driver is never invoked (the outcome is independent of the
driver and the call flag is `false`). -/
theorem similaritySearch_dimension_mismatch (coll : CollectionInfo)
    (qv : List Int) (driver : List Int → List PointInfo)
    (h : qv.length ≠ coll.vector_size) :
    similaritySearch coll qv driver
      = (Except.error ApiError.DimensionMismatch, false) := by
  simp [similaritySearch, h]

/-- Witness for C5: a 3-component query against a `vector_size = 4`
collection fails with `DimensionMismatch` without calling the driver. -/
theorem similaritySearch_dimension_mismatch_witness :
    ([1, 2, 3] : List Int).length ≠ sampleCollection.vector_size ∧
    similaritySearch sampleCollection [1, 2, 3] (fun _ => [samplePoint1])
      = (Except.error ApiError.DimensionMismatch, false) :=
  ⟨by decide,
   similaritySearch_dimension_mismatch sampleCollection [1, 2, 3]
     (fun _ => [samplePoint1]) (by decide)⟩


/-- C6: exporting a collection with zero points yields exactly the header
line — a non-empty artifact — and the caller (`ApiService.exportCollection`)
rejects a zero-byte blob as a transport failure while accepting any
non-empty one. -/
theorem export_empty_header_only (withVectors : Bool) :
    exportCollectionCsv [] withVectors
        = csvLine (exportHeaderCells [] withVectors) ++ ['\n'] ∧
    0 < (exportCollectionCsv [] withVectors).length ∧
    receiveExportBlob 0 = Except.error "Export failed: Empty file received" ∧
    (∀ n, n ≠ 0 → receiveExportBlob n = Except.ok n) := by
  refine ⟨by simp [exportCollectionCsv], ?_, rfl, ?_⟩
  · cases withVectors <;> decide
  · intro n hn
    simp [receiveExportBlob, hn]

/-- Witness for C6: the vectorless empty export is non-empty, and a 3-byte
blob is accepted. -/
theorem export_empty_header_only_witness :
    0 < (exportCollectionCsv [] false).length ∧
    (3 : Nat) ≠ 0 ∧ receiveExportBlob 3 = Except.ok 3 :=
  ⟨(export_empty_header_only false).2.1, by decide,
   (export_empty_header_only false).2.2.2 3 (by decide)⟩

/-- C7: registering a descriptor whose name already exists fails with
`DuplicateName`, and the registry the caller holds afterwards is the
unchanged original — no silent replacement. -/
theorem registerInstance_duplicate (registry : List InstanceConfig)
    (inst : InstanceConfig) (h : ∃ d ∈ registry, d.name = inst.name) :
    registerInstance registry inst = Except.error ApiError.DuplicateName ∧
    registryAfterRegister registry inst = registry := by
  have hany : registry.any (fun i => i.name = inst.name) = true := by
    obtain ⟨d, hd, hname⟩ := h
    exact List.any_eq_true.mpr ⟨d, hd, by simp [hname]⟩
  constructor
  · simp [registerInstance, hany]
  · simp [registryAfterRegister, registerInstance, hany]

/-- Witness for C7: registering a second descriptor named `local-qdrant`
into a registry that already holds one fails and leaves the registry as it
was. -/
theorem registerInstance_duplicate_witness :
    (∃ d ∈ [sampleInstA], d.name = sampleInstA2.name) ∧
    registerInstance [sampleInstA] sampleInstA2
        = Except.error ApiError.DuplicateName ∧
    registryAfterRegister [sampleInstA] sampleInstA2 = [sampleInstA] :=
  have h : ∃ d ∈ [sampleInstA], d.name = sampleInstA2.name :=
    ⟨sampleInstA, by simp, by decide⟩
  ⟨h, (registerInstance_duplicate [sampleInstA] sampleInstA2 h).1,
      (registerInstance_duplicate [sampleInstA] sampleInstA2 h).2⟩

theorem searchGo_length_le (cs : Bool) (n : List Char) (mr : Nat) :
    ∀ (ps acc : List PointInfo) (sc : Nat), acc.length ≤ mr →
      (searchGo cs n mr ps acc sc).1.length ≤ mr := by
  intro ps
  induction ps with
  | nil => intro acc sc h; simpa [searchGo] using h
  | cons p ps ih =>
    intro acc sc h
    by_cases he : acc.length = mr
    · simp [searchGo, he]
    · rw [show searchGo cs n mr (p :: ps) acc sc
          = searchGo cs n mr ps
              (if matchesPoint cs n p then acc ++ [p] else acc) (sc + 1) by
        simp [searchGo, he]]
      by_cases hm : matchesPoint cs n p
      · rw [if_pos hm]
        refine ih _ _ ?_
        rw [List.length_append, List.length_singleton]
        omega
      · rw [if_neg hm]
        exact ih _ _ h

theorem searchCollection_length_le (coll : List PointInfo) (needle : List Char)
    (cs : Bool) (mr : Nat) :
    (searchCollection coll needle cs mr).results.length ≤ mr := by
  simpa [searchCollection] using
    searchGo_length_le cs needle mr coll [] 0 (by simp)

/-- C8: whenever `handleSearch` sends a request, that request carries the
fixed `limit = 100` — independent of the results-per-page control — so the
stored result list never exceeds 100 points, and the per-page selector only
slices the stored results client-side (`drop`/`take`), without re-querying
the backend. -/
theorem handleSearch_fixed_limit (coll : List PointInfo) (s : BrowserState)
    (sel : String) (hsel : s.selectedCollection = some sel)
    (ht : (trimChars s.searchText).isEmpty = false) :
    (handleSearch coll s).2
        = some { collection_name := sel
                 search_text := trimChars s.searchText
                 limit := 100
                 case_sensitive := s.caseSensitive } ∧
    (handleSearch coll s).1.searchResults.length ≤ 100 ∧
    (∀ rpp, (handleSearch coll { s with searchResultsPerPage := rpp }).2
        = (handleSearch coll s).2) ∧
    (∀ page rpp,
      paginatedSearchResults
        { (handleSearch coll s).1 with
            searchCurrentPage := page, searchResultsPerPage := rpp }
        = ((handleSearch coll s).1.searchResults.drop (page * rpp)).take rpp) := by
  refine ⟨by simp [handleSearch, hsel, ht], ?_, ?_, ?_⟩
  · have hres : (handleSearch coll s).1.searchResults
        = (searchCollection coll (trimChars s.searchText) s.caseSensitive 100).results := by
      simp [handleSearch, hsel, ht]
    rw [hres]
    exact searchCollection_length_le coll (trimChars s.searchText) s.caseSensitive 100
  · intro rpp
    simp [handleSearch, hsel, ht]
  · intro page rpp
    simp [paginatedSearchResults]

/-- Witness for C8: from `sampleBrowserState` (needle `apple`,
results-per-page 10) the request sent is `sampleRequest` with `limit = 100`,
and the stored results stay within 100. -/
theorem handleSearch_fixed_limit_witness :
    sampleBrowserState.selectedCollection = some "docs" ∧
    (trimChars sampleBrowserState.searchText).isEmpty = false ∧
    (handleSearch sampleDocs sampleBrowserState).2 = some sampleRequest ∧
    (handleSearch sampleDocs sampleBrowserState).1.searchResults.length ≤ 100 := by
  have h1 : sampleBrowserState.selectedCollection = some "docs" := by decide
  have h2 : (trimChars sampleBrowserState.searchText).isEmpty = false := by decide
  have hmain := handleSearch_fixed_limit sampleDocs sampleBrowserState "docs" h1 h2
  refine ⟨h1, h2, ?_, hmain.2.1⟩
  rw [hmain.1]
  decide

theorem nodup_names_filter {α : Type} (f : α → String) (p : α → Bool)
    (l : List α) (h : (l.map f).Nodup) : ((l.filter p).map f).Nodup :=
  h.sublist ((List.filter_sublist l).map f)

theorem nodup_names_add {α : Type} (f : α → String) (l : List α) (x : α)
    (h : (l.map f).Nodup) :
    (((l.filter (fun a => f a ≠ f x)) ++ [x]).map f).Nodup := by
  rw [List.map_append]
  refine List.Nodup.append (nodup_names_filter f _ l h) (by simp) ?_
  intro y hy hy'
  simp only [List.map_cons, List.map_nil, List.mem_singleton] at hy'
  subst hy'
  obtain ⟨a, ha, hfa⟩ := List.mem_map.mp hy
  have hne := (List.mem_filter.mp ha).2
  simp only [ne_eq, decide_not, Bool.not_eq_true', decide_eq_false_iff_not] at hne
  exact hne hfa

theorem namesUnique_applyOp (s : ClientState) (op : ClientOp)
    (h : namesUnique s) : namesUnique (applyClientOp s op) := by
  obtain ⟨hi, hc⟩ := h
  cases op with
  | addCfg c =>
    exact ⟨hi, nodup_names_add QdrantConfig.name s.configs c hc⟩
  | addInst i =>
    exact ⟨nodup_names_add InstanceConfig.name s.instances i hi, hc⟩
  | rmCfg n =>
    exact ⟨hi, nodup_names_filter QdrantConfig.name _ s.configs hc⟩
  | rmInst n =>
    exact ⟨nodup_names_filter InstanceConfig.name _ s.instances hi, hc⟩

/-- C9: client-side name uniqueness — starting from any provider state whose
instance and config names are unique, every sequence of
`addInstance`/`removeInstance`/`addConfig`/`removeConfig` operations keeps
at most one entry per name (adding first removes any same-named entry). -/
theorem client_names_unique (s : ClientState) (ops : List ClientOp)
    (h : namesUnique s) : namesUnique (runClientOps s ops) := by
  induction ops generalizing s with
  | nil => exact h
  | cons op ops ih => exact ih _ (namesUnique_applyOp s op h)

/-- Witness for C9: from the empty provider state, adding two instances that
share the name `local-qdrant` and one other instance leaves unique names. -/
theorem client_names_unique_witness :
    namesUnique emptyClientState ∧
    namesUnique (runClientOps emptyClientState
      [ClientOp.addInst sampleInstA, ClientOp.addInst sampleInstA2,
       ClientOp.addInst sampleInstB]) :=
  have h : namesUnique emptyClientState := by decide
  ⟨h, client_names_unique emptyClientState
      [ClientOp.addInst sampleInstA, ClientOp.addInst sampleInstA2,
       ClientOp.addInst sampleInstB] h⟩

/-- C10: a needle that trims to empty is a no-op — `handleSearch` sends no
request and returns the state unchanged, and both highlighting components
render their input unchanged as a single plain fragment. -/
theorem empty_needle_noop (coll : List PointInfo) (s : BrowserState)
    (text : List Char) (j : Json) (cs : Bool)
    (h : trimChars s.searchText = []) :
    handleSearch coll s = (s, none) ∧
    highlightedText text s.searchText cs = [Fragment.plain text] ∧
    highlightedJson j s.searchText cs = [Fragment.plain (serializeJson j)] := by
  have hE : (trimChars s.searchText).isEmpty = true := by simp [h]
  refine ⟨?_, by simp [highlightedText, hE], by simp [highlightedJson, hE]⟩
  cases hsel : s.selectedCollection with
  | none => simp [handleSearch, hsel]
  | some sel => simp [handleSearch, hsel, hE]

/-- Witness for C10: the whitespace-only needle `"   "` leaves the Browser
state untouched, sends nothing, and renders `hello` unchanged. -/
theorem empty_needle_noop_witness :
    trimChars sampleBrowserStateWS.searchText = [] ∧
    handleSearch sampleDocs sampleBrowserStateWS = (sampleBrowserStateWS, none) ∧
    highlightedText ("hello".data) sampleBrowserStateWS.searchText false
        = [Fragment.plain ("hello".data)] :=
  have h : trimChars sampleBrowserStateWS.searchText = [] := by decide
  ⟨h,
   (empty_needle_noop sampleDocs sampleBrowserStateWS ("hello".data) Json.null false h).1,
   (empty_needle_noop sampleDocs sampleBrowserStateWS ("hello".data) Json.null false h).2.1⟩

